import Mathlib

set_option maxRecDepth 4000

/-!
Verification of the LINE-1 annotation parser in scripts/L1parsing.py.

The Python source is embedded shallowly:

* a file is modelled as its list of decoded text lines (newline-stripped);
  the tolerant byte decoding (errors="ignore") happens before the embedding;
* the two module-level regular expressions are modelled as executable
  functions on lists of characters, with the character classes \w, \W, \s
  and \d read in their ASCII meaning (every input appearing in the claims
  is ASCII) and IGNORECASE modelled by upper-casing;
* the float produced by float(parts[1]) is carried as its source token:
  no claim needs the numeric value, only whether the token parses
  (pyFloatAccepts) and whether it is one of the literals inf, infinity,
  nan that parse to a non-finite value (pyFloatNonfinite).
-/

/-- Python whitespace as used by str.strip, the regex class \s and the
dashed-divider pattern, restricted to ASCII. -/
def pyIsSpace (c : Char) : Bool :=
  c = ' ' || c = '\t' || c = '\n' || c = '\r' || c = '\x0b' || c = '\x0c'

/-- Regex word character \w (ASCII): letters, digits and the underscore.
Its complement is \W. -/
def isWordChar (c : Char) : Bool :=
  c.isAlphanum || c = '_'

/-- Both-ends strip, as Python str.strip() with no argument. -/
def trimChars (l : List Char) : List Char :=
  ((l.dropWhile pyIsSpace).reverse.dropWhile pyIsSpace).reverse

/-- Model of re.match(r"^\s*-+\s*$", line) from read_rmsk_out: after
stripping surrounding whitespace the line is one or more dashes and
nothing else. -/
def isDashLine (line : String) : Bool :=
  !(trimChars line.data).isEmpty && (trimChars line.data).all (fun c => c = '-')

/-- Index of the first dashed divider line, if any (the enumerate/break
loop of read_rmsk_out). -/
def dashIdx : List String → Option Nat
  | [] => none
  | l :: rest => if isDashLine l then some 0 else (dashIdx rest).map (fun i => i + 1)

/-- The data-start offset: index just past the first dashed line, or 0
when the file has no dashed line (skip stays at its initial value). -/
def skipOf (lines : List String) : Nat :=
  match dashIdx lines with
  | some i => i + 1
  | none => 0

/-- Accumulator pass for whitespace tokenization. -/
def tokenizeGo : List Char → List Char → List (List Char)
  | cur, [] => if cur.isEmpty then [] else [cur.reverse]
  | cur, c :: rest =>
    if pyIsSpace c then
      if cur.isEmpty then tokenizeGo [] rest else cur.reverse :: tokenizeGo [] rest
    else tokenizeGo (c :: cur) rest

/-- Model of re.split(r"\s+", line.strip()): the maximal runs of
non-whitespace characters, in order. On a non-blank line this is exactly
the Python token list (no empty tokens arise after the strip). -/
def tokenize (line : String) : List String :=
  (tokenizeGo [] line.data).map String.mk

/-- Drop the leading run of non-word characters. -/
def dropNonWord (l : List Char) : List Char :=
  l.dropWhile (fun c => !isWordChar c)

/-- Does L1_CLASS_PAT match at this position of the (upper-cased)
haystack?  The pattern is LINE\W*/*\W*L1; since "/" is itself a non-word
character, \W*/*\W* matches exactly the all-non-word strings, so a match
here is the literal LINE, a run of non-word characters, then L1.  The run
must be maximal before L1 can start, because L is a word character, so no
backtracking case is lost. -/
def classMatchAt : List Char → Bool
  | 'L' :: 'I' :: 'N' :: 'E' :: rest =>
    match dropNonWord rest with
    | 'L' :: '1' :: _ => true
    | _ => false
  | _ => false

/-- Model of L1_CLASS_PAT.search on an upper-cased haystack: some
position matches. -/
def searchClass : List Char → Bool
  | [] => false
  | c :: rest => classMatchAt (c :: rest) || searchClass rest

/-- Model of repName.upper().startswith("L1"). -/
def upperStartsWithL1 (s : String) : Bool :=
  match s.data.map Char.toUpper with
  | 'L' :: '1' :: _ => true
  | _ => false

/-- Model of is_l1 from the source: the class/family string and the name
are joined with a single space (the f-string), the joined string is
searched with L1_CLASS_PAT, and otherwise a non-empty name whose
upper-case form starts with L1 is accepted. -/
def is_l1 (repClassFamily repName : String) : Bool :=
  if searchClass ((repClassFamily ++ " " ++ repName).data.map Char.toUpper) then true
  else if (repName != "") && upperStartsWithL1 repName then true
  else false

/-- Membership predicate as the specification words it, for comparison
with the source is_l1: the plain concatenation of the two fields (no
separator) is searched, with the same repName fallback. -/
def is_l1_concat_spec (repClassFamily repName : String) : Bool :=
  if searchClass ((repClassFamily ++ repName).data.map Char.toUpper) then true
  else if (repName != "") && upperStartsWithL1 repName then true
  else false

/-- Maximal run of ASCII digits. -/
def takeDigits (l : List Char) : List Char :=
  l.takeWhile Char.isDigit

/-- Alternative L1HS of L1_FAM_PAT, applied after the L1 stem; returns
the matched characters in original case. -/
def altL1HS (rest : List Char) : Option (List Char) :=
  match rest with
  | c3 :: c4 :: _ =>
    if c3.toUpper = 'H' && c4.toUpper = 'S' then some [c3, c4] else none
  | _ => none

/-- Alternative L1PA\d+ of L1_FAM_PAT, applied after the L1 stem. -/
def altL1PA (rest : List Char) : Option (List Char) :=
  match rest with
  | c3 :: c4 :: r =>
    if c3.toUpper = 'P' && c4.toUpper = 'A' then
      if (takeDigits r).isEmpty then none else some (c3 :: c4 :: takeDigits r)
    else none
  | _ => none

/-- Alternative L1PB\d+ of L1_FAM_PAT, applied after the L1 stem. -/
def altL1PB (rest : List Char) : Option (List Char) :=
  match rest with
  | c3 :: c4 :: r =>
    if c3.toUpper = 'P' && c4.toUpper = 'B' then
      if (takeDigits r).isEmpty then none else some (c3 :: c4 :: takeDigits r)
    else none
  | _ => none

/-- Alternative L1[A-Z]{1,2}\d* of L1_FAM_PAT (IGNORECASE makes [A-Z]
any ASCII letter), applied after the L1 stem: greedily two letters when
available, else one, then a maximal digit run. -/
def altL1Letters (rest : List Char) : Option (List Char) :=
  match rest with
  | c3 :: r =>
    if c3.isAlpha then
      match r with
      | c4 :: r2 => if c4.isAlpha then some (c3 :: c4 :: takeDigits r2)
                    else some (c3 :: takeDigits r)
      | [] => some [c3]
    else none
  | [] => none

/-- Alternative L1P\w+ of L1_FAM_PAT, applied after the L1 stem. -/
def altL1Pword (rest : List Char) : Option (List Char) :=
  match rest with
  | c3 :: r =>
    if c3.toUpper = 'P' then
      if (r.takeWhile isWordChar).isEmpty then none
      else some (c3 :: r.takeWhile isWordChar)
    else none
  | [] => none

/-- Does L1_FAM_PAT match at this position?  All five alternatives begin
with the case-insensitive stem L1, so the stem is factored out; the
alternatives are then tried in the order written in the pattern, exactly
as the regex engine does at a fixed position. -/
def famMatchAt (l : List Char) : Option (List Char) :=
  match l with
  | c1 :: c2 :: rest =>
    if c1.toUpper = 'L' && c2.toUpper = '1' then
      match altL1HS rest with
      | some m => some (c1 :: c2 :: m)
      | none =>
        match altL1PA rest with
        | some m => some (c1 :: c2 :: m)
        | none =>
          match altL1PB rest with
          | some m => some (c1 :: c2 :: m)
          | none =>
            match altL1Letters rest with
            | some m => some (c1 :: c2 :: m)
            | none =>
              match altL1Pword rest with
              | some m => some (c1 :: c2 :: m)
              | none => none
    else none
  | _ => none

/-- Model of L1_FAM_PAT.search followed by m.group(0): the leftmost
position wins, and the original-case matched text is returned. -/
def famSearch : List Char → Option (List Char)
  | [] => none
  | c :: rest =>
    match famMatchAt (c :: rest) with
    | some m => some m
    | none => famSearch rest

/-- Everything after the first "/" of the list, i.e.
repClassFamily.split("/", 1)[1]. -/
def afterFirstSlash : List Char → List Char
  | [] => []
  | '/' :: rest => rest
  | _ :: rest => afterFirstSlash rest

/-- First step of infer_family: the slash rule.  The result is empty
both when there is no "/" and when nothing follows the first "/". -/
def famFromSlash (repClassFamily : String) : List Char :=
  if repClassFamily.data.contains '/' then afterFirstSlash repClassFamily.data else []

/-- Second step of infer_family: when the slash rule produced nothing
and the name is non-empty, search the name with L1_FAM_PAT; a missing
match leaves the family empty. -/
def famWithName (repName : String) (fam : List Char) : List Char :=
  if fam.isEmpty && (repName != "") then
    match famSearch repName.data with
    | some m => m
    | none => fam
  else fam

/-- Model of infer_family from the source: slash rule, then name-pattern
rule, then the literal Unknown when both produced an empty family. -/
def infer_family (repName repClassFamily : String) : String :=
  if (famWithName repName (famFromSlash repClassFamily)).isEmpty then "Unknown"
  else String.mk (famWithName repName (famFromSlash repClassFamily))

/-- Drop one leading sign character, as both float() and int() allow. -/
def stripSign (l : List Char) : List Char :=
  match l with
  | c :: rest => if c = '+' || c = '-' then rest else c :: rest
  | [] => []

/-- Continuation of a digit run in Python numeric literals: digits, with
single underscores allowed only between digits. -/
def digTail : List Char → List Char
  | [] => []
  | c :: rest =>
    if c.isDigit then digTail rest
    else if c = '_' then
      match rest with
      | d :: rest2 => if d.isDigit then digTail rest2 else c :: rest
      | [] => [c]
    else c :: rest

/-- Consume one digitpart (at least one digit, underscores between
digits); returns the remainder, or none when no digit starts here. -/
def parseDigitpart (l : List Char) : Option (List Char) :=
  match l with
  | c :: rest => if c.isDigit then some (digTail rest) else none
  | [] => none

/-- Consume the mantissa of a float literal: digitpart, digitpart "."
optional-digitpart, or "." digitpart. -/
def parseNumber (l : List Char) : Option (List Char) :=
  match parseDigitpart l with
  | some rem =>
    match rem with
    | '.' :: rest =>
      match parseDigitpart rest with
      | some r2 => some r2
      | none => some rest
    | _ => some rem
  | none =>
    match l with
    | '.' :: rest => parseDigitpart rest
    | _ => none

/-- Consume an optional exponent: e or E, optional sign, digitpart.  A
present but malformed exponent gives none (the literal is rejected). -/
def parseExponent (l : List Char) : Option (List Char) :=
  match l with
  | c :: rest =>
    if c = 'e' || c = 'E' then
      match rest with
      | s :: rest2 =>
        if s = '+' || s = '-' then parseDigitpart rest2 else parseDigitpart rest
      | [] => none
    else some (c :: rest)
  | [] => some []

/-- Case-insensitive literal prefix: returns the remainder when the
upper-cased input starts with the given upper-case pattern. -/
def upperPrefixDrop : List Char → List Char → Option (List Char)
  | [], rest => some rest
  | _ :: _, [] => none
  | p :: ps, c :: cs => if c.toUpper = p then upperPrefixDrop ps cs else none

/-- Does Python float() accept this string?  Grammar: surrounding
whitespace, one optional sign, then inf, infinity or nan
(case-insensitive) or a numeric literal with optional exponent. -/
def pyFloatAccepts (s : String) : Bool :=
  match upperPrefixDrop ['I', 'N', 'F', 'I', 'N', 'I', 'T', 'Y'] (stripSign (s.data.dropWhile pyIsSpace)) with
  | some r => (r.dropWhile pyIsSpace).isEmpty
  | none =>
    match upperPrefixDrop ['I', 'N', 'F'] (stripSign (s.data.dropWhile pyIsSpace)) with
    | some r => (r.dropWhile pyIsSpace).isEmpty
    | none =>
      match upperPrefixDrop ['N', 'A', 'N'] (stripSign (s.data.dropWhile pyIsSpace)) with
      | some r => (r.dropWhile pyIsSpace).isEmpty
      | none =>
        match parseNumber (stripSign (s.data.dropWhile pyIsSpace)) with
        | some r =>
          match parseExponent r with
          | some r2 => (r2.dropWhile pyIsSpace).isEmpty
          | none => false
        | none => false

/-- The accepted float literals whose value is certainly not finite:
inf, infinity and nan, case-insensitive, with one optional sign. -/
def pyFloatNonfinite (s : String) : Bool :=
  ((stripSign (trimChars s.data)).map Char.toUpper) = ['I', 'N', 'F']
  || ((stripSign (trimChars s.data)).map Char.toUpper) = ['I', 'N', 'F', 'I', 'N', 'I', 'T', 'Y']
  || ((stripSign (trimChars s.data)).map Char.toUpper) = ['N', 'A', 'N']

/-- Numeric value of the digit characters of the list, underscores and
anything else skipped; used only on validated digitparts. -/
def digitsVal (l : List Char) : Nat :=
  l.foldl (fun a c => if c.isDigit then a * 10 + (c.toNat - 48) else a) 0

/-- Model of Python int(): surrounding whitespace, one optional sign,
one digitpart (base 10, underscores between digits), nothing else. -/
def pyIntParse (s : String) : Option Int :=
  match parseDigitpart (stripSign (s.data.dropWhile pyIsSpace)) with
  | some rem =>
    if (rem.dropWhile pyIsSpace).isEmpty then
      if (s.data.dropWhile pyIsSpace).head? = some '-' then
        some (-(digitsVal (stripSign (s.data.dropWhile pyIsSpace)) : Int))
      else some ((digitsVal (stripSign (s.data.dropWhile pyIsSpace)) : Int))
    else none
  | none => none

/-- Model of tok.replace(",", ""): every comma removed. -/
def stripCommas (s : String) : String :=
  String.mk (s.data.filter (fun c => c != ','))

/-- One row of the result of read_rmsk_out.  perc_div is carried as its
source token (see the file header); the record is only built when that
token is accepted by float(). -/
structure AnnotationRecord where
  seqname : String
  startPos : Option Int
  endPos : Option Int
  strand : String
  repName : String
  repClassFamily : String
  repFamily : String
  percDivTok : String
deriving DecidableEq

/-- The try/except around int(q_begin); int(q_end): both coordinates
survive only when both parse; any failure records both as absent. -/
def coords (qBegin qEnd : String) : Option Int × Option Int :=
  match pyIntParse qBegin, pyIntParse qEnd with
  | some a, some b => (some a, some b)
  | _, _ => (none, none)

/-- Body of the read_rmsk_out loop for one already-tokenized row: the
length guard, the mandatory divergence parse, field extraction at the
fixed positions, the two-token strand window and the is_l1 filter.  The
getD default is never reached: every position read is below 14. -/
def processParts (parts : List String) : Option AnnotationRecord :=
  if parts.length < 14 then none
  else if pyFloatAccepts (parts.getD 1 "") then
    if is_l1 (parts.getD 10 "") (parts.getD 9 "") then
      some ⟨parts.getD 4 "",
            (coords (stripCommas (parts.getD 5 "")) (stripCommas (parts.getD 6 ""))).1,
            (coords (stripCommas (parts.getD 5 "")) (stripCommas (parts.getD 6 ""))).2,
            if parts.getD 8 "" = "C" ∨ parts.getD 9 "" = "C" then "-" else "+",
            parts.getD 9 "",
            parts.getD 10 "",
            infer_family (parts.getD 9 "") (parts.getD 10 ""),
            parts.getD 1 ""⟩
    else none
  else none

/-- One line of the data pass: blank lines are skipped, the rest are
tokenized and handed to processParts. -/
def processLine (line : String) : Option AnnotationRecord :=
  if (trimChars line.data).isEmpty then none
  else processParts (tokenize line)

/-- Model of read_rmsk_out on the file given as its line list: find the
data-start offset, then fold the per-line body over the remaining
lines. -/
def read_rmsk_out (lines : List String) : List AnnotationRecord :=
  (lines.drop (skipOf lines)).filterMap processLine

/-- The message-and-exit pair of the empty-result branch of
write_outputs. -/
structure FatalExit where
  message : String
  code : Nat
deriving DecidableEq

/-- Model of write_outputs, reduced to its observable effects: on an
empty record list it exits with the user-visible message and status 1
before opening any file; otherwise it writes the CSV, the summary, the
histogram and, for a positive top_families, the family overlay, in that
order.  The numeric and graphical contents are outside the embedding. -/
def write_outputs (rows : List AnnotationRecord) (pfx : String) (topFamilies : Int) :
    Except FatalExit (List String) :=
  if rows.isEmpty then
    Except.error ⟨"No LINE-1 rows found with usable % divergence.", 1⟩
  else
    Except.ok ([pfx ++ ".csv", pfx ++ "_summary.txt", pfx ++ ".png"]
      ++ (if 0 < topFamilies then [pfx ++ "_families.png"] else []))

/-- Inversion of the per-row body: a produced record passed the length
guard, the divergence parse and the is_l1 filter, and each field is the
stated function of the tokens. -/
theorem processParts_some (parts : List String) (r : AnnotationRecord)
    (h : processParts parts = some r) :
    14 ≤ parts.length
    ∧ pyFloatAccepts (parts.getD 1 "") = true
    ∧ is_l1 (parts.getD 10 "") (parts.getD 9 "") = true
    ∧ r.percDivTok = parts.getD 1 ""
    ∧ r.seqname = parts.getD 4 ""
    ∧ r.repName = parts.getD 9 ""
    ∧ r.repClassFamily = parts.getD 10 ""
    ∧ r.repFamily = infer_family (parts.getD 9 "") (parts.getD 10 "")
    ∧ r.strand = (if parts.getD 8 "" = "C" ∨ parts.getD 9 "" = "C" then "-" else "+")
    ∧ (match pyIntParse (stripCommas (parts.getD 5 "")), pyIntParse (stripCommas (parts.getD 6 "")) with
       | some a, some b => r.startPos = some a ∧ r.endPos = some b
       | _, _ => r.startPos = none ∧ r.endPos = none) := by
  unfold processParts at h
  split at h
  · exact Option.noConfusion h
  next h14 =>
    split at h
    next hf =>
      split at h
      next hl =>
        injection h with h
        subst h
        refine ⟨by omega, hf, hl, rfl, rfl, rfl, rfl, rfl, rfl, ?_⟩
        unfold coords
        rcases hA : pyIntParse (stripCommas (parts.getD 5 "")) with _ | a <;>
          rcases hB : pyIntParse (stripCommas (parts.getD 6 "")) with _ | b <;>
            exact ⟨rfl, rfl⟩
      · exact Option.noConfusion h
    · exact Option.noConfusion h

/-- A row that passes the length guard, the divergence parse and the
is_l1 filter is always emitted, whatever its other tokens hold. -/
theorem processParts_isSome (parts : List String) (h14 : 14 ≤ parts.length)
    (hf : pyFloatAccepts (parts.getD 1 "") = true)
    (hl : is_l1 (parts.getD 10 "") (parts.getD 9 "") = true) :
    (processParts parts).isSome = true := by
  unfold processParts
  rw [if_neg (by omega), if_pos hf, if_pos hl]
  rfl

/-- The family inferred for a record is never the empty string. -/
theorem infer_family_ne_empty (n c : String) : infer_family n c ≠ "" := by
  unfold infer_family
  split
  · intro h
    exact absurd (congrArg String.data h) (by simp)
  next hne =>
    intro h
    have hdata : famWithName n (famFromSlash c) = "".data := congrArg String.data h
    rw [hdata] at hne
    exact hne rfl

/-- Complete description of the dashed-divider scan: when no line is a
dashed divider the scan reports none and every line fails the divider
test; when it reports an index, that line is a divider and every earlier
line is not. -/
theorem dashIdx_spec (lines : List String) :
    (dashIdx lines = none → lines.all (fun l => !isDashLine l) = true)
    ∧ (∀ i : Nat, dashIdx lines = some i →
        i < lines.length ∧ isDashLine (lines.getD i "") = true
        ∧ (lines.take i).all (fun l => !isDashLine l) = true) := by
  induction lines with
  | nil =>
    refine ⟨fun _ => rfl, fun i h => ?_⟩
    simp [dashIdx] at h
  | cons l rest ih =>
    by_cases hd : isDashLine l
    · refine ⟨fun h => ?_, fun i h => ?_⟩
      · simp [dashIdx, hd] at h
      · simp [dashIdx, hd] at h
        subst h
        exact ⟨by simp, by simpa using hd, by simp⟩
    · refine ⟨fun h => ?_, fun i h => ?_⟩
      · simp [dashIdx, hd] at h
        have := ih.1 h
        simp [List.all_cons, hd, this]
      · simp only [dashIdx, if_neg hd, Option.map_eq_some'] at h
        obtain ⟨j, hj, hji⟩ := h
        obtain ⟨h1, h2, h3⟩ := ih.2 j hj
        subst hji
        refine ⟨by simpa using h1, by simpa using h2, ?_⟩
        simpa [List.take_succ_cons, List.all_cons, hd] using h3

/-- C1, counterexample to the finiteness clause: on a well-formed file
whose divergence token is "inf", read_rmsk_out emits a record; the token
is accepted by float() but names a non-finite value, so the emitted
perc_div is not a finite float. -/
theorem c1_nonfinite_percdiv_counterexample :
    read_rmsk_out ["---", "0 inf 0 0 chr1 100 200 + + L1HS LINE/L1 x y z"]
      = [⟨"chr1", some 100, some 200, "+", "L1HS", "LINE/L1", "L1", "inf"⟩]
    ∧ pyFloatAccepts "inf" = true
    ∧ pyFloatNonfinite "inf" = true := by
  refine ⟨?_, rfl, rfl⟩
  rfl

/-- C1, amended: every record emitted by read_rmsk_out satisfies is_l1
on its class/name fields and carries a non-empty repFamily, and its
perc_div token parses as a float; finiteness is not guaranteed. -/
theorem c1_emitted_record_invariants :
    ∀ (lines : List String) (r : AnnotationRecord), r ∈ read_rmsk_out lines →
      is_l1 r.repClassFamily r.repName = true
      ∧ pyFloatAccepts r.percDivTok = true
      ∧ r.repFamily ≠ "" := by
  intro lines r hr
  unfold read_rmsk_out at hr
  obtain ⟨line, _, hline⟩ := List.mem_filterMap.mp hr
  unfold processLine at hline
  split at hline
  · exact Option.noConfusion hline
  · obtain ⟨_, hf, hl, hpd, _, hn, hc, hfam, _, _⟩ :=
      processParts_some (tokenize line) r hline
    refine ⟨?_, ?_, ?_⟩
    · rw [hc, hn]; exact hl
    · rw [hpd]; exact hf
    · rw [hfam]; exact infer_family_ne_empty _ _

/-- C1, witness: the amended invariant evaluated on a concrete file. -/
theorem c1_emitted_record_invariants_witness :
    is_l1 (AnnotationRecord.repClassFamily ⟨"chr1", some 100, some 200, "+", "L1HS", "LINE/L1", "L1", "7.5"⟩)
        (AnnotationRecord.repName ⟨"chr1", some 100, some 200, "+", "L1HS", "LINE/L1", "L1", "7.5"⟩) = true
    ∧ pyFloatAccepts (AnnotationRecord.percDivTok ⟨"chr1", some 100, some 200, "+", "L1HS", "LINE/L1", "L1", "7.5"⟩) = true
    ∧ AnnotationRecord.repFamily ⟨"chr1", some 100, some 200, "+", "L1HS", "LINE/L1", "L1", "7.5"⟩ ≠ "" :=
  c1_emitted_record_invariants ["---", "0 7.5 0 0 chr1 100 200 + + L1HS LINE/L1 x y z"]
    ⟨"chr1", some 100, some 200, "+", "L1HS", "LINE/L1", "L1", "7.5"⟩ (by decide)

/-- C2, counterexample: "LINE/" contains a "/" but the text after the
first "/" is empty, and infer_family then falls through to the name
pattern instead of returning that empty substring. -/
theorem c2_empty_after_slash_counterexample :
    ("LINE/".data.contains '/') = true
    ∧ afterFirstSlash "LINE/".data = []
    ∧ infer_family "L1PA3" "LINE/" = "L1PA3"
    ∧ infer_family "L1PA3" "LINE/" ≠ String.mk (afterFirstSlash "LINE/".data) := by
  refine ⟨rfl, rfl, rfl, ?_⟩
  decide

/-- C2, amended: when classFamilyString contains a "/" and the text
after the first "/" is non-empty, infer_family returns exactly that
text, pre-empting the name-pattern search and the Unknown fallback. -/
theorem c2_slash_rule :
    ∀ (cf n : String), cf.data.contains '/' = true →
      afterFirstSlash cf.data ≠ [] →
      infer_family n cf = String.mk (afterFirstSlash cf.data) := by
  intro cf n hc hne
  have hie : (afterFirstSlash cf.data).isEmpty = false := by
    cases hx : afterFirstSlash cf.data with
    | nil => exact absurd hx hne
    | cons a l => rfl
  have h1 : famFromSlash cf = afterFirstSlash cf.data := by
    unfold famFromSlash
    rw [if_pos hc]
  have h2 : famWithName n (famFromSlash cf) = afterFirstSlash cf.data := by
    rw [h1]
    unfold famWithName
    rw [hie]
    rfl
  unfold infer_family
  rw [h2, hie]
  rfl

/-- C2, witness: the amended slash rule at the example of the
specification, repClassFamily "LINE/L1" and repName "L1PA3". -/
theorem c2_slash_rule_witness :
    infer_family "L1PA3" "LINE/L1" = String.mk (afterFirstSlash "LINE/L1".data) :=
  c2_slash_rule "LINE/L1" "L1PA3" (by decide) (by decide)

/-- C3, counterexample: on repeatName "ignored" and classFamilyString
"LINE/L1HS" the function does not return "HS". -/
theorem c3_not_hs_counterexample :
    infer_family "ignored" "LINE/L1HS" ≠ "HS" := by
  decide

/-- C3, amended: everything after the first "/" of "LINE/L1HS" is
"L1HS", and that is what infer_family returns. -/
theorem c3_linel1hs_family :
    infer_family "ignored" "LINE/L1HS" = "L1HS" := by
  rfl

/-- C4, counterexample to the plain-concatenation reading: on
classFamilyString "LINEL" and repeatName "1" the concatenation "LINEL1"
matches the class pattern, yet is_l1 is false, because the source joins
the two fields with a space. -/
theorem c4_concat_counterexample :
    is_l1 "LINEL" "1" = false ∧ is_l1_concat_spec "LINEL" "1" = true := by
  exact ⟨rfl, rfl⟩

/-- C4, amended: is_l1 is the disjunction of the class-pattern search on
the space-separated concatenation of the two fields and the fallback on
a non-empty repeatName whose upper-case form starts with L1; the three
examples of the specification hold. -/
theorem c4_is_l1_characterization :
    (∀ cf n : String,
      is_l1 cf n
        = (searchClass (((cf ++ " " ++ n).data).map Char.toUpper)
            || ((n != "") && upperStartsWithL1 n)))
    ∧ is_l1 "LINE/L1" "L1HS" = true
    ∧ is_l1 "SINE/Alu" "L1-like" = true
    ∧ is_l1 "SINE/Alu" "AluY" = false := by
  refine ⟨?_, rfl, rfl, rfl⟩
  intro cf n
  unfold is_l1
  cases h : searchClass (((cf ++ " " ++ n).data).map Char.toUpper) <;>
    cases hx : ((n != "") && upperStartsWithL1 n) <;> simp [h, hx]

/-- C5: on any produced record, the strand is "-" exactly when the token
at position 8 or the token at position 9 equals "C" (a two-token window,
not a single position), and "+" in every other case. -/
theorem c5_strand_window :
    ∀ (parts : List String) (r : AnnotationRecord), processParts parts = some r →
      (r.strand = "-" ↔ (parts.getD 8 "" = "C" ∨ parts.getD 9 "" = "C"))
      ∧ (r.strand = "-" ∨ r.strand = "+") := by
  intro parts r h
  obtain ⟨_, _, _, _, _, _, _, _, hstr, _⟩ := processParts_some parts r h
  rw [hstr]
  by_cases hw : parts.getD 8 "" = "C" ∨ parts.getD 9 "" = "C"
  · rw [if_pos hw]
    exact ⟨⟨fun _ => hw, fun _ => rfl⟩, Or.inl rfl⟩
  · rw [if_neg hw]
    refine ⟨⟨fun hcontra => ?_, fun hcontra => absurd hcontra hw⟩, Or.inr rfl⟩
    exact absurd (congrArg String.data hcontra) (by decide)

/-- C5, witness: a row whose token 8 is the complement marker produces a
record with strand "-". -/
theorem c5_strand_window_witness :
    (AnnotationRecord.strand ⟨"chr1", some 100, some 200, "-", "L1HS", "LINE/L1", "L1", "1.5"⟩ = "-"
      ↔ ((["0", "1.5", "0", "0", "chr1", "100", "200", "+", "C", "L1HS", "LINE/L1", "x", "y", "z"].getD 8 "") = "C"
          ∨ (["0", "1.5", "0", "0", "chr1", "100", "200", "+", "C", "L1HS", "LINE/L1", "x", "y", "z"].getD 9 "") = "C"))
    ∧ (AnnotationRecord.strand ⟨"chr1", some 100, some 200, "-", "L1HS", "LINE/L1", "L1", "1.5"⟩ = "-"
       ∨ AnnotationRecord.strand ⟨"chr1", some 100, some 200, "-", "L1HS", "LINE/L1", "L1", "1.5"⟩ = "+") :=
  c5_strand_window ["0", "1.5", "0", "0", "chr1", "100", "200", "+", "C", "L1HS", "LINE/L1", "x", "y", "z"]
    ⟨"chr1", some 100, some 200, "-", "L1HS", "LINE/L1", "L1", "1.5"⟩ (by decide)

/-- C6: a row of fewer than 14 tokens yields nothing; a row of at least
14 tokens yields a record exactly when its divergence token parses as a
float and is_l1 holds on its class/name tokens; and the number of
emitted records never exceeds the number of data lines. -/
theorem c6_row_retention :
    (∀ parts : List String, parts.length < 14 → processParts parts = none)
    ∧ (∀ parts : List String, 14 ≤ parts.length →
        (processParts parts).isSome
          = (pyFloatAccepts (parts.getD 1 "") && is_l1 (parts.getD 10 "") (parts.getD 9 "")))
    ∧ (∀ lines : List String,
        (read_rmsk_out lines).length ≤ (lines.drop (skipOf lines)).length) := by
  refine ⟨?_, ?_, ?_⟩
  · intro parts h
    unfold processParts
    rw [if_pos h]
  · intro parts h
    unfold processParts
    rw [if_neg (by omega)]
    cases hf : pyFloatAccepts (parts.getD 1 "") <;>
      cases hl : is_l1 (parts.getD 10 "") (parts.getD 9 "") <;> simp
  · intro lines
    unfold read_rmsk_out
    exact List.length_filterMap_le processLine (lines.drop (skipOf lines))

/-- C6, witness: the three clauses at concrete rows and a concrete
file. -/
theorem c6_row_retention_witness :
    processParts ["only", "three", "tokens"] = none
    ∧ (processParts ["0", "1.5", "0", "0", "chr1", "100", "200", "+", "+", "L1HS", "LINE/L1", "x", "y", "z"]).isSome
        = (pyFloatAccepts (["0", "1.5", "0", "0", "chr1", "100", "200", "+", "+", "L1HS", "LINE/L1", "x", "y", "z"].getD 1 "")
           && is_l1 (["0", "1.5", "0", "0", "chr1", "100", "200", "+", "+", "L1HS", "LINE/L1", "x", "y", "z"].getD 10 "")
                (["0", "1.5", "0", "0", "chr1", "100", "200", "+", "+", "L1HS", "LINE/L1", "x", "y", "z"].getD 9 ""))
    ∧ (read_rmsk_out ["no divider anywhere"]).length
        ≤ (["no divider anywhere"].drop (skipOf ["no divider anywhere"])).length :=
  ⟨c6_row_retention.1 ["only", "three", "tokens"] (by decide),
   c6_row_retention.2.1 ["0", "1.5", "0", "0", "chr1", "100", "200", "+", "+", "L1HS", "LINE/L1", "x", "y", "z"] (by decide),
   c6_row_retention.2.2 ["no divider anywhere"]⟩

/-- C7: the coordinates of a produced record are the integer parses of
the comma-stripped tokens at positions 5 and 6, both recorded as absent
on any parse failure; and a coordinate failure never excludes the row,
because retention depends only on the length guard, the divergence token
and the is_l1 test. -/
theorem c7_coordinate_fallback :
    (∀ (parts : List String) (r : AnnotationRecord), processParts parts = some r →
      (match pyIntParse (stripCommas (parts.getD 5 "")), pyIntParse (stripCommas (parts.getD 6 "")) with
       | some a, some b => r.startPos = some a ∧ r.endPos = some b
       | _, _ => r.startPos = none ∧ r.endPos = none))
    ∧ (∀ parts : List String, 14 ≤ parts.length →
        pyFloatAccepts (parts.getD 1 "") = true →
        is_l1 (parts.getD 10 "") (parts.getD 9 "") = true →
        (processParts parts).isSome = true) := by
  refine ⟨?_, ?_⟩
  · intro parts r h
    exact (processParts_some parts r h).2.2.2.2.2.2.2.2.2
  · intro parts h14 hf hl
    exact processParts_isSome parts h14 hf hl

/-- C7, witness: a row with an unparseable start coordinate is still
emitted, with both coordinates absent. -/
theorem c7_coordinate_fallback_witness :
    (match pyIntParse (stripCommas (["0", "1.5", "0", "0", "chr1", "x100", "200", "+", "+", "L1HS", "LINE/L1", "a", "b", "c"].getD 5 "")),
           pyIntParse (stripCommas (["0", "1.5", "0", "0", "chr1", "x100", "200", "+", "+", "L1HS", "LINE/L1", "a", "b", "c"].getD 6 "")) with
     | some a, some b =>
        AnnotationRecord.startPos ⟨"chr1", none, none, "+", "L1HS", "LINE/L1", "L1", "1.5"⟩ = some a
        ∧ AnnotationRecord.endPos ⟨"chr1", none, none, "+", "L1HS", "LINE/L1", "L1", "1.5"⟩ = some b
     | _, _ =>
        AnnotationRecord.startPos ⟨"chr1", none, none, "+", "L1HS", "LINE/L1", "L1", "1.5"⟩ = none
        ∧ AnnotationRecord.endPos ⟨"chr1", none, none, "+", "L1HS", "LINE/L1", "L1", "1.5"⟩ = none)
    ∧ (processParts ["0", "1.5", "0", "0", "chr1", "x100", "200", "+", "+", "L1HS", "LINE/L1", "a", "b", "c"]).isSome = true :=
  ⟨c7_coordinate_fallback.1 ["0", "1.5", "0", "0", "chr1", "x100", "200", "+", "+", "L1HS", "LINE/L1", "a", "b", "c"]
      ⟨"chr1", none, none, "+", "L1HS", "LINE/L1", "L1", "1.5"⟩ (by decide),
   c7_coordinate_fallback.2 ["0", "1.5", "0", "0", "chr1", "x100", "200", "+", "+", "L1HS", "LINE/L1", "a", "b", "c"]
      (by decide) (by decide) (by decide)⟩

/-- C8: either no line of the file is a dashed divider, and the offset
is 0 so that every line is a data line, or the offset is one past the
first dashed divider line. -/
theorem c8_header_offset :
    ∀ lines : List String,
      (lines.all (fun l => !isDashLine l) = true
        ∧ skipOf lines = 0
        ∧ lines.drop (skipOf lines) = lines)
      ∨ (1 ≤ skipOf lines ∧ skipOf lines ≤ lines.length
        ∧ isDashLine (lines.getD (skipOf lines - 1) "") = true
        ∧ (lines.take (skipOf lines - 1)).all (fun l => !isDashLine l) = true) := by
  intro lines
  rcases h : dashIdx lines with _ | i
  · left
    refine ⟨(dashIdx_spec lines).1 h, ?_, ?_⟩
    · unfold skipOf
      rw [h]
    · unfold skipOf
      rw [h]
      rfl
  · right
    obtain ⟨h1, h2, h3⟩ := (dashIdx_spec lines).2 i h
    have hs : skipOf lines = i + 1 := by
      unfold skipOf
      rw [h]
    rw [hs]
    refine ⟨by omega, by omega, ?_, ?_⟩
    · simpa using h2
    · simpa using h3

/-- C9: an empty record sequence makes write_outputs exit with the
user-visible message and status 1, producing no output file at all. -/
theorem c9_empty_run_fatal :
    ∀ (lines : List String) (pfx : String) (tf : Int),
      read_rmsk_out lines = [] →
      write_outputs (read_rmsk_out lines) pfx tf
          = Except.error ⟨"No LINE-1 rows found with usable % divergence.", 1⟩
      ∧ (write_outputs (read_rmsk_out lines) pfx tf).isOk = false
      ∧ FatalExit.code ⟨"No LINE-1 rows found with usable % divergence.", 1⟩ ≠ 0 := by
  intro lines pfx tf h
  rw [h]
  exact ⟨rfl, rfl, by decide⟩

/-- C9, witness: a file with a header divider and no qualifying data row
reaches the fatal branch. -/
theorem c9_empty_run_fatal_witness :
    write_outputs (read_rmsk_out ["RM header", "----", "1 2 3"]) "out" 0
        = Except.error ⟨"No LINE-1 rows found with usable % divergence.", 1⟩
    ∧ (write_outputs (read_rmsk_out ["RM header", "----", "1 2 3"]) "out" 0).isOk = false
    ∧ FatalExit.code ⟨"No LINE-1 rows found with usable % divergence.", 1⟩ ≠ 0 :=
  c9_empty_run_fatal ["RM header", "----", "1 2 3"] "out" 0 (by decide)

/-- C10: a record admitted only through the repName fallback keeps its
non-LINE class string, and its repFamily is taken verbatim from that
class string: with class "SINE/Alu" and name "L1-like" the class pattern
fails, is_l1 still holds, and the emitted repFamily is "Alu". -/
theorem c10_fallback_family_verbatim :
    is_l1 "SINE/Alu" "L1-like" = true
    ∧ searchClass (("SINE/Alu L1-like").data.map Char.toUpper) = false
    ∧ processParts ["0", "1.5", "0", "0", "chr1", "100", "200", "+", "+", "L1-like", "SINE/Alu", "x", "y", "z"]
        = some ⟨"chr1", some 100, some 200, "+", "L1-like", "SINE/Alu", "Alu", "1.5"⟩
    ∧ infer_family "L1-like" "SINE/Alu" = "Alu"
    ∧ infer_family "L1-like" "SINE/Alu" ≠ "" := by
  refine ⟨rfl, rfl, rfl, rfl, ?_⟩
  decide
